import Mathlib

/-!
Verification of the public user-profile page handler
(`src/app/u/[username]/page.tsx` of UniShare).

The handler is a single server-side request function.  We embed it
shallowly: JavaScript string operations are modelled over `String.data`
(the underlying character list), the external row-query client
(Supabase/PostgREST) is modelled from the spec's interface description
(exact-equality filter, case-insensitive equality filter, boolean
filters, order-by descending, row limit, `maybeSingle`), and the
handler itself is a pure function from the request input, the session
state and the query responses to a rendered output plus the list of
data-store operations it issued.
-/

namespace UniShare

/-! ### Model of the JavaScript string operations used by the page -/

/-- Trimming a character list: drop whitespace at the front, then at the back. -/
def trimChars (l : List Char) : List Char :=
  ((l.dropWhile Char.isWhitespace).reverse.dropWhile Char.isWhitespace).reverse

/-- Model of JavaScript `String.prototype.trim`: remove leading and trailing
whitespace. -/
def jsTrim (s : String) : String :=
  ⟨trimChars s.data⟩

/-- Model of JavaScript `username.startsWith("@")`: the first character is `@`. -/
def jsStartsWithAtSign (s : String) : Bool :=
  match s.data with
  | [] => false
  | c :: _ => c == '@'

/-- Model of JavaScript `s.substring(1)`: drop the first character. -/
def jsSubstringFromOne (s : String) : String :=
  ⟨s.data.drop 1⟩

/-- Model of JavaScript `s.substring(0, 2)`: the first two characters. -/
def jsTakeTwo (s : String) : String :=
  ⟨s.data.take 2⟩

/-- Model of JavaScript `s.toUpperCase()` (ASCII letters, as produced by
`Char.toUpper`). -/
def jsToUpper (s : String) : String :=
  ⟨s.data.map Char.toUpper⟩

/-- Model of JavaScript `s.toLowerCase()` (ASCII letters, as produced by
`Char.toLower`); also used for the store's case-insensitive comparison. -/
def jsToLower (s : String) : String :=
  ⟨s.data.map Char.toLower⟩

/-- Model of JavaScript `a || b` on strings: the empty string is falsy. -/
def jsOr (a b : String) : String :=
  if a == "" then b else a

/-- The page's username normalization
(`params.username.startsWith("@") ? params.username.substring(1).trim() : params.username.trim()`):
strip a single leading `@` if present, then trim whitespace. -/
def cleanUsername (u : String) : String :=
  if jsStartsWithAtSign u then jsTrim (jsSubstringFromOne u) else jsTrim u

/-! ### Data model: external rows read by the page -/

/-- A row of the `user_profiles` table.  Nullable text columns are modelled
as `String` with `""` standing for null/absent, matching the page's use of
JavaScript truthiness on these fields. -/
structure Profile where
  id : Nat
  username : String
  full_name : String
  avatar_url : String
  university : String
  major : String
  bio : String
deriving DecidableEq

/-- A row of the `resources` table (the columns the page filters and orders by). -/
structure Resource where
  id : Nat
  author_id : Nat
  is_approved : Bool
  created_at : Nat
deriving DecidableEq

/-- A row of the `study_groups` table (the columns the page filters and orders by). -/
structure StudyGroup where
  id : Nat
  created_by : Nat
  is_private : Bool
  created_at : Nat
deriving DecidableEq

/-- An authentication session; the page only tests its presence. -/
structure Session where
  user_id : Nat
deriving DecidableEq

/-- The external data store: the three tables the page reads. -/
structure Store where
  user_profiles : List Profile
  resources : List Resource
  study_groups : List StudyGroup
deriving DecidableEq

/-! ### Model of the row-query client

Modelled from the spec: the external row-query client supports an
exact-equality filter, a case-insensitive equality filter, boolean-equality
filters, descending order-by on a timestamp column, a row-count limit, and a
zero-or-one-row (`maybeSingle`) result shape.  The client itself is an
external collaborator, not code of this repository. -/

/-- `.eq("username", key)` on `user_profiles`: case-sensitive equality. -/
def eqUsernameFilter (s : Store) (key : String) : List Profile :=
  s.user_profiles.filter (fun p => p.username == key)

/-- Modelled from the spec: `.ilike("username", key)` on `user_profiles` as a
case-insensitive equality filter (the spec's "Fallback match: case-insensitive
equality filter"). -/
def ilikeUsernameFilter (s : Store) (key : String) : List Profile :=
  s.user_profiles.filter (fun p => jsToLower p.username == jsToLower key)

/-- `maybeSingle()` result shape: `(data, error)`.  Zero rows give null data
and no error; one row gives that row; more than one row is an error with
null data. -/
def maybeSingle (rows : List Profile) : Option Profile × Bool :=
  match rows with
  | [] => (none, false)
  | [p] => (some p, false)
  | _ => (none, true)

/-- Newest-first ordering on resources (`created_at` descending). -/
def resourceNewestFirst (a b : Resource) : Prop :=
  b.created_at ≤ a.created_at

instance : DecidableRel resourceNewestFirst :=
  fun a b => Nat.decLe b.created_at a.created_at

instance : IsTotal Resource resourceNewestFirst :=
  ⟨fun a b => le_total b.created_at a.created_at⟩

instance : IsTrans Resource resourceNewestFirst :=
  ⟨fun _ _ _ hab hbc => le_trans hbc hab⟩

/-- Newest-first ordering on study groups (`created_at` descending). -/
def groupNewestFirst (a b : StudyGroup) : Prop :=
  b.created_at ≤ a.created_at

instance : DecidableRel groupNewestFirst :=
  fun a b => Nat.decLe b.created_at a.created_at

instance : IsTotal StudyGroup groupNewestFirst :=
  ⟨fun a b => le_total b.created_at a.created_at⟩

instance : IsTrans StudyGroup groupNewestFirst :=
  ⟨fun _ _ _ hab hbc => le_trans hbc hab⟩

/-- The resources query issued by the page:
`.eq("author_id", id).eq("is_approved", true).order("created_at", descending).limit(3)`.
Filtering is from the source; ordering and limit are modelled from the spec's
description of the client (sort by `created_at` descending, cap at 3 rows). -/
def resourcesQuery (s : Store) (authorId : Nat) : List Resource :=
  (List.insertionSort resourceNewestFirst
    (s.resources.filter (fun r => r.author_id == authorId && r.is_approved))).take 3

/-- The study-groups query issued by the page:
`.eq("created_by", id).eq("is_private", false).order("created_at", descending).limit(3)`. -/
def studyGroupsQuery (s : Store) (creatorId : Nat) : List StudyGroup :=
  (List.insertionSort groupNewestFirst
    (s.study_groups.filter (fun g => g.created_by == creatorId && !g.is_private))).take 3

/-! ### Data-store operations

The page only ever issues `select`s, but the operation language also has
write operations (with their effect on the store defined below) so that
"the handler never mutates the store" is a statement about an operation
language in which mutation is expressible. -/

/-- An operation sent to the data store. -/
inductive DBOp where
  | selectProfileExact (key : String)
  | selectProfileIlike (key : String)
  | selectResources (authorId : Nat)
  | selectStudyGroups (creatorId : Nat)
  | insertProfile (p : Profile)
  | insertResource (r : Resource)
  | insertStudyGroup (g : StudyGroup)
  | deleteProfile (id : Nat)
  | deleteResource (id : Nat)
  | deleteStudyGroup (id : Nat)
deriving DecidableEq

/-- Read operations: the four `select` shapes. -/
def DBOp.isRead : DBOp → Bool
  | .selectProfileExact _ => true
  | .selectProfileIlike _ => true
  | .selectResources _ => true
  | .selectStudyGroups _ => true
  | _ => false

/-- Effect of one operation on the store: reads leave it unchanged, writes
change it. -/
def applyDBOp (s : Store) : DBOp → Store
  | .selectProfileExact _ => s
  | .selectProfileIlike _ => s
  | .selectResources _ => s
  | .selectStudyGroups _ => s
  | .insertProfile p => { s with user_profiles := s.user_profiles ++ [p] }
  | .insertResource r => { s with resources := s.resources ++ [r] }
  | .insertStudyGroup g => { s with study_groups := s.study_groups ++ [g] }
  | .deleteProfile i => { s with user_profiles := s.user_profiles.filter (fun p => p.id != i) }
  | .deleteResource i => { s with resources := s.resources.filter (fun r => r.id != i) }
  | .deleteStudyGroup i => { s with study_groups := s.study_groups.filter (fun g => g.id != i) }

/-- Effect of a sequence of operations on the store. -/
def execLog (s : Store) (l : List DBOp) : Store :=
  l.foldl applyDBOp s

/-! ### The request handler -/

/-- Which of the four queries the external client answers with an error.
Query-level errors are injected here; on an error the client's `data` is
null. -/
structure ErrorEnv where
  exactErr : Bool
  ilikeErr : Bool
  resErr : Bool
  groupsErr : Bool

/-- The error-free environment. -/
def noErrors : ErrorEnv :=
  ⟨false, false, false, false⟩

/-- The raw `(data, error)` responses the client hands back for each of the
page's queries.  The two related-data responses are indexed by the author id
the page passes once a profile is resolved. -/
structure QueryResponses where
  exactResp : Option Profile × Bool
  ilikeResp : Option Profile × Bool
  resResp : Nat → Option (List Resource) × Bool
  groupsResp : Nat → Option (List StudyGroup) × Bool

/-- The responses the store produces for lookup key `key` under error
environment `env`: on an injected error the data component is null, exactly
as the external client behaves. -/
def mkResponses (s : Store) (key : String) (env : ErrorEnv) : QueryResponses where
  exactResp := if env.exactErr then (none, true) else maybeSingle (eqUsernameFilter s key)
  ilikeResp := if env.ilikeErr then (none, true) else maybeSingle (ilikeUsernameFilter s key)
  resResp := fun authorId =>
    if env.resErr then (none, true) else (some (resourcesQuery s authorId), false)
  groupsResp := fun creatorId =>
    if env.groupsErr then (none, true) else (some (studyGroupsQuery s creatorId), false)

/-- The profile header and the two tabbed lists, as rendered by the page's
JSX for a resolved profile. -/
structure RenderedView where
  avatarSrc : Option String
  avatarAlt : String
  avatarFallback : String
  displayName : String
  handle : String
  universityLine : Option String
  majorLine : Option String
  bioLine : Option String
  resourceCards : List Resource
  resourcesEmptyState : Bool
  studyGroupCards : List StudyGroup
  groupsEmptyState : Bool
deriving DecidableEq

/-- The view the page renders for profile row `p` with fetched resource rows
`rs` and study-group rows `gs`, field by field from the JSX:
`avatar_url || undefined`, `full_name || username` for the alt text and the
display name, `(full_name || username || "").substring(0, 2).toUpperCase()`
for the avatar fallback, `@{username}` for the handle, a conditional line for
each of `university`, `major` and `bio`, and the two card lists with their
empty states. -/
def renderView (p : Profile) (rs : List Resource) (gs : List StudyGroup) : RenderedView where
  avatarSrc := if p.avatar_url == "" then none else some p.avatar_url
  avatarAlt := jsOr p.full_name p.username
  avatarFallback := jsToUpper (jsTakeTwo (jsOr p.full_name (jsOr p.username "")))
  displayName := jsOr p.full_name p.username
  handle := "@" ++ p.username
  universityLine := if p.university == "" then none else some p.university
  majorLine := if p.major == "" then none else some p.major
  bioLine := if p.bio == "" then none else some p.bio
  resourceCards := rs
  resourcesEmptyState := rs.isEmpty
  studyGroupCards := gs
  groupsEmptyState := gs.isEmpty

/-- What the handler produces: a redirect instruction, the static
"User Not Found" view, or the rendered profile view. -/
inductive Output where
  | redirect (path : String)
  | notFound
  | render (view : RenderedView)
deriving DecidableEq

/-- The handler's control flow over given query responses, together with the
list of data-store operations it issues, in order:
if a session exists, redirect to `/dashboard/public-profile/` followed by the
raw username parameter, issuing no query; otherwise look up the normalized
key exactly, fall back to the case-insensitive lookup only when the exact
lookup's data is null, render "User Not Found" when both are null, and
otherwise fetch the resolved profile's resources and study groups (null data
renders as an empty list) and render the view. -/
def handlerWith (rawUsername : String) (session : Option Session)
    (r : QueryResponses) : Output × List DBOp :=
  match session with
  | some _ => (Output.redirect ("/dashboard/public-profile/" ++ rawUsername), [])
  | none =>
    match r.exactResp.1, r.ilikeResp.1 with
    | some p, _ =>
      (Output.render (renderView p ((r.resResp p.id).1.getD []) ((r.groupsResp p.id).1.getD [])),
       [DBOp.selectProfileExact (cleanUsername rawUsername),
        DBOp.selectResources p.id, DBOp.selectStudyGroups p.id])
    | none, some p =>
      (Output.render (renderView p ((r.resResp p.id).1.getD []) ((r.groupsResp p.id).1.getD [])),
       [DBOp.selectProfileExact (cleanUsername rawUsername),
        DBOp.selectProfileIlike (cleanUsername rawUsername),
        DBOp.selectResources p.id, DBOp.selectStudyGroups p.id])
    | none, none =>
      (Output.notFound,
       [DBOp.selectProfileExact (cleanUsername rawUsername),
        DBOp.selectProfileIlike (cleanUsername rawUsername)])

/-- The page handler `UserProfilePage`: run the control flow against the
store's responses for the normalized key under the given error
environment. -/
def UserProfilePage (rawUsername : String) (session : Option Session)
    (s : Store) (env : ErrorEnv) : Output × List DBOp :=
  handlerWith rawUsername session (mkResponses s (cleanUsername rawUsername) env)

/-- The profile row the two-step lookup resolves (error-free): the exact
match if its `maybeSingle` data is non-null, otherwise the case-insensitive
match's data. -/
def resolvedProfile (s : Store) (key : String) : Option Profile :=
  match (maybeSingle (eqUsernameFilter s key)).1 with
  | some p => some p
  | none => (maybeSingle (ilikeUsernameFilter s key)).1

/-- The same responses with every query-level error erased: each error flag
is cleared and a failed (null-data) list query is read as the empty result.
A response bundle and its `asEmpty` form differ exactly in what a query
failure would add on top of "no data". -/
def QueryResponses.asEmpty (r : QueryResponses) : QueryResponses where
  exactResp := (r.exactResp.1, false)
  ilikeResp := (r.ilikeResp.1, false)
  resResp := fun i => (some ((r.resResp i).1.getD []), false)
  groupsResp := fun i => (some ((r.groupsResp i).1.getD []), false)

/-- The spec's normalization, in its own words: "strip a single leading `@`
if present, then trim whitespace". -/
def stripAtThenTrim (v : String) : String :=
  jsTrim (if jsStartsWithAtSign v then jsSubstringFromOne v else v)

/-! ### Concrete fixtures for the witnesses -/

/-- A stored profile whose username has mixed case. -/
def janeProfile : Profile :=
  { id := 1, username := "JaneDoe", full_name := "Jane Doe", avatar_url := "",
    university := "", major := "", bio := "" }

/-- A store holding only `janeProfile`. -/
def janeStore : Store :=
  { user_profiles := [janeProfile], resources := [], study_groups := [] }

/-- A profile with some header fields present and some absent. -/
def aliceProfile : Profile :=
  { id := 7, username := "alice", full_name := "Alice A", avatar_url := "pic",
    university := "Uni", major := "", bio := "hi" }

def resA : Resource := { id := 1, author_id := 7, is_approved := true, created_at := 10 }

def resB : Resource := { id := 2, author_id := 7, is_approved := true, created_at := 20 }

def resC : Resource := { id := 3, author_id := 7, is_approved := false, created_at := 30 }

def resD : Resource := { id := 4, author_id := 9, is_approved := true, created_at := 40 }

def grpA : StudyGroup := { id := 1, created_by := 7, is_private := false, created_at := 5 }

def grpB : StudyGroup := { id := 2, created_by := 7, is_private := true, created_at := 6 }

def grpC : StudyGroup := { id := 3, created_by := 7, is_private := false, created_at := 9 }

def grpD : StudyGroup := { id := 4, created_by := 8, is_private := false, created_at := 9 }

/-- A store holding `aliceProfile` with a mix of approved/unapproved resources
and private/public study groups, by her and by others. -/
def aliceStore : Store :=
  { user_profiles := [aliceProfile], resources := [resA, resB, resC, resD],
    study_groups := [grpA, grpB, grpC, grpD] }

/-- The empty store. -/
def emptyStore : Store :=
  { user_profiles := [], resources := [], study_groups := [] }

/-- Responses in which every query failed (error flag set, null data). -/
def errorAllResponses : QueryResponses :=
  { exactResp := (none, true), ilikeResp := (none, true),
    resResp := fun _ => (none, true), groupsResp := fun _ => (none, true) }

/-! ### Helper lemmas -/

theorem dropWhile_twice {α : Type} (p : α → Bool) (l : List α) :
    (l.dropWhile p).dropWhile p = l.dropWhile p := by
  induction l with
  | nil => rfl
  | cons a l ih =>
    by_cases h : p a
    · simp [List.dropWhile_cons, h, ih]
    · simp [List.dropWhile_cons, h]

theorem dropWhile_eq_self_of_isPrefix {α : Type} (p : α → Bool) {t m : List α}
    (h : t <+: m) (hm : m.dropWhile p = m) : t.dropWhile p = t := by
  cases t with
  | nil => rfl
  | cons a t' =>
    obtain ⟨r, rfl⟩ := h
    by_cases hp : p a
    · exfalso
      have hm' : List.dropWhile p (t' ++ r) = a :: (t' ++ r) := by
        rw [List.cons_append, List.dropWhile_cons, if_pos hp] at hm
        exact hm
      have hlen := congrArg List.length hm'
      rw [List.length_cons] at hlen
      have hle := (List.dropWhile_suffix (l := t' ++ r) p).sublist.length_le
      omega
    · rw [List.dropWhile_cons]
      simp [hp]

theorem trimChars_idem (l : List Char) : trimChars (trimChars l) = trimChars l := by
  have hmm : (l.dropWhile Char.isWhitespace).dropWhile Char.isWhitespace
      = l.dropWhile Char.isWhitespace := dropWhile_twice _ _
  have hpre : trimChars l <+: l.dropWhile Char.isWhitespace := by
    rw [← List.reverse_suffix]
    unfold trimChars
    rw [List.reverse_reverse]
    exact List.dropWhile_suffix _
  have h1 : (trimChars l).dropWhile Char.isWhitespace = trimChars l :=
    dropWhile_eq_self_of_isPrefix _ hpre hmm
  calc trimChars (trimChars l)
      = (((trimChars l).dropWhile Char.isWhitespace).reverse.dropWhile
          Char.isWhitespace).reverse := rfl
    _ = ((trimChars l).reverse.dropWhile Char.isWhitespace).reverse := by rw [h1]
    _ = trimChars l := by
        unfold trimChars
        rw [List.reverse_reverse, dropWhile_twice]

theorem jsTrim_idem (s : String) : jsTrim (jsTrim s) = jsTrim s :=
  congrArg String.mk (trimChars_idem s.data)

theorem handlerWith_some (raw : String) (sess : Session) (r : QueryResponses) :
    handlerWith raw (some sess) r =
      (Output.redirect ("/dashboard/public-profile/" ++ raw), []) := rfl

theorem handlerWith_exact (raw : String) (r : QueryResponses) (p : Profile)
    (h : r.exactResp.1 = some p) :
    handlerWith raw none r =
      (Output.render
        (renderView p ((r.resResp p.id).1.getD []) ((r.groupsResp p.id).1.getD [])),
       [DBOp.selectProfileExact (cleanUsername raw),
        DBOp.selectResources p.id, DBOp.selectStudyGroups p.id]) := by
  unfold handlerWith
  rw [h]

theorem handlerWith_fallback (raw : String) (r : QueryResponses) (p : Profile)
    (h₁ : r.exactResp.1 = none) (h₂ : r.ilikeResp.1 = some p) :
    handlerWith raw none r =
      (Output.render
        (renderView p ((r.resResp p.id).1.getD []) ((r.groupsResp p.id).1.getD [])),
       [DBOp.selectProfileExact (cleanUsername raw),
        DBOp.selectProfileIlike (cleanUsername raw),
        DBOp.selectResources p.id, DBOp.selectStudyGroups p.id]) := by
  unfold handlerWith
  rw [h₁, h₂]

theorem handlerWith_notFound (raw : String) (r : QueryResponses)
    (h₁ : r.exactResp.1 = none) (h₂ : r.ilikeResp.1 = none) :
    handlerWith raw none r =
      (Output.notFound,
       [DBOp.selectProfileExact (cleanUsername raw),
        DBOp.selectProfileIlike (cleanUsername raw)]) := by
  unfold handlerWith
  rw [h₁, h₂]

theorem mkResponses_exact_noErrors (s : Store) (k : String) :
    (mkResponses s k noErrors).exactResp = maybeSingle (eqUsernameFilter s k) := rfl

theorem mkResponses_ilike_noErrors (s : Store) (k : String) :
    (mkResponses s k noErrors).ilikeResp = maybeSingle (ilikeUsernameFilter s k) := rfl

theorem mkResponses_res_noErrors (s : Store) (k : String) (i : Nat) :
    (mkResponses s k noErrors).resResp i = (some (resourcesQuery s i), false) := rfl

theorem mkResponses_groups_noErrors (s : Store) (k : String) (i : Nat) :
    (mkResponses s k noErrors).groupsResp i = (some (studyGroupsQuery s i), false) := rfl

theorem UserProfilePage_render_of_resolved (raw : String) (s : Store) (p : Profile)
    (h : resolvedProfile s (cleanUsername raw) = some p) :
    (UserProfilePage raw none s noErrors).1 =
      Output.render (renderView p (resourcesQuery s p.id) (studyGroupsQuery s p.id)) := by
  unfold resolvedProfile at h
  unfold UserProfilePage
  rcases he : (maybeSingle (eqUsernameFilter s (cleanUsername raw))).1 with _ | q
  · rw [he] at h
    rw [handlerWith_fallback raw _ p he h]
    rfl
  · rw [he] at h
    cases h
    rw [handlerWith_exact raw _ p he]
    rfl

theorem resourcesQuery_length (s : Store) (i : Nat) : (resourcesQuery s i).length ≤ 3 := by
  unfold resourcesQuery
  exact List.length_take_le 3 _

theorem resourcesQuery_mem (s : Store) (i : Nat) (r : Resource)
    (h : r ∈ resourcesQuery s i) : r.author_id = i ∧ r.is_approved = true := by
  unfold resourcesQuery at h
  have h1 := List.take_subset _ _ h
  have h2 := (List.perm_insertionSort resourceNewestFirst _).mem_iff.mp h1
  rw [List.mem_filter] at h2
  have h3 := h2.2
  simp only [Bool.and_eq_true, beq_iff_eq] at h3
  exact h3

theorem resourcesQuery_sorted (s : Store) (i : Nat) :
    List.Sorted resourceNewestFirst (resourcesQuery s i) := by
  unfold resourcesQuery
  exact List.Pairwise.sublist (List.take_sublist _ _) (List.sorted_insertionSort _ _)

theorem studyGroupsQuery_length (s : Store) (i : Nat) : (studyGroupsQuery s i).length ≤ 3 := by
  unfold studyGroupsQuery
  exact List.length_take_le 3 _

theorem studyGroupsQuery_mem (s : Store) (i : Nat) (g : StudyGroup)
    (h : g ∈ studyGroupsQuery s i) : g.created_by = i ∧ g.is_private = false := by
  unfold studyGroupsQuery at h
  have h1 := List.take_subset _ _ h
  have h2 := (List.perm_insertionSort groupNewestFirst _).mem_iff.mp h1
  rw [List.mem_filter] at h2
  have h3 := h2.2
  simp only [Bool.and_eq_true, beq_iff_eq, Bool.not_eq_true'] at h3
  exact h3

theorem studyGroupsQuery_sorted (s : Store) (i : Nat) :
    List.Sorted groupNewestFirst (studyGroupsQuery s i) := by
  unfold studyGroupsQuery
  exact List.Pairwise.sublist (List.take_sublist _ _) (List.sorted_insertionSort _ _)

/-! ### The claims -/

/-- C1: whenever the auth provider reports an existing session, the handler
terminates immediately with a redirect to `/dashboard/public-profile/`
followed by the original raw username parameter verbatim (not the normalized
key), and it issues zero queries to the data store. -/
theorem session_redirects_without_queries (raw : String) (sess : Session)
    (s : Store) (env : ErrorEnv) :
    UserProfilePage raw (some sess) s env =
      (Output.redirect ("/dashboard/public-profile/" ++ raw), []) := rfl

/-- C2: with no session the handler first issues the case-sensitive
exact-equality lookup on the normalized key; the case-insensitive lookup is
issued if and only if the exact lookup yields no row; a row yielded by the
exact lookup is the one rendered (the fallback never overrides it); and when
no row matches exactly but a row matches case-insensitively (uniquely, as
usernames are unique), the fallback finds it and the page renders it. -/
theorem exact_lookup_first_fallback_iff (raw : String) (s : Store) :
    (UserProfilePage raw none s noErrors).2.head? =
        some (DBOp.selectProfileExact (cleanUsername raw)) ∧
    (DBOp.selectProfileIlike (cleanUsername raw) ∈ (UserProfilePage raw none s noErrors).2 ↔
        (maybeSingle (eqUsernameFilter s (cleanUsername raw))).1 = none) ∧
    (∀ p : Profile, (maybeSingle (eqUsernameFilter s (cleanUsername raw))).1 = some p →
        (UserProfilePage raw none s noErrors).1 =
          Output.render (renderView p (resourcesQuery s p.id) (studyGroupsQuery s p.id))) ∧
    (∀ q : Profile, eqUsernameFilter s (cleanUsername raw) = [] →
        ilikeUsernameFilter s (cleanUsername raw) = [q] →
        (UserProfilePage raw none s noErrors).1 =
          Output.render (renderView q (resourcesQuery s q.id) (studyGroupsQuery s q.id))) := by
  unfold UserProfilePage
  rcases he : (maybeSingle (eqUsernameFilter s (cleanUsername raw))).1 with _ | p
  · rcases hi : (maybeSingle (ilikeUsernameFilter s (cleanUsername raw))).1 with _ | q
    · rw [handlerWith_notFound raw _ he hi]
      refine ⟨rfl, by simp, ?_, ?_⟩
      · intro p hp
        exact Option.noConfusion hp
      · intro q h₁ h₂
        rw [h₂] at hi
        simp [maybeSingle] at hi
    · rw [handlerWith_fallback raw _ q he hi]
      refine ⟨rfl, by simp, ?_, ?_⟩
      · intro p hp
        exact Option.noConfusion hp
      · intro q' h₁ h₂
        rw [h₂] at hi
        simp only [maybeSingle, Option.some.injEq] at hi
        subst hi
        rfl
  · rw [handlerWith_exact raw _ p he]
    refine ⟨rfl, by simp, ?_, ?_⟩
    · intro p' hp
      injection hp with hpp
      subst hpp
      rfl
    · intro q h₁ h₂
      rw [h₁] at he
      simp [maybeSingle] at he

/-- C2 witness: requested username "janedoe" against stored "JaneDoe": the
exact filter yields nothing, the case-insensitive fallback finds the stored
row, and the page renders that row. -/
theorem exact_lookup_first_fallback_iff_witness :
    (UserProfilePage "janedoe" none janeStore noErrors).1 =
      Output.render (renderView janeProfile (resourcesQuery janeStore janeProfile.id)
        (studyGroupsQuery janeStore janeProfile.id)) :=
  (exact_lookup_first_fallback_iff "janedoe" janeStore).2.2.2 janeProfile
    (by decide) (by decide)

/-- C3: with no session, when neither lookup yields a profile row the handler
returns the static "User Not Found" view and issues no resource query and no
study-group query: the operation log is exactly the two profile lookups. -/
theorem not_found_no_related_queries (raw : String) (s : Store) (env : ErrorEnv)
    (h₁ : (mkResponses s (cleanUsername raw) env).exactResp.1 = none)
    (h₂ : (mkResponses s (cleanUsername raw) env).ilikeResp.1 = none) :
    (UserProfilePage raw none s env).1 = Output.notFound ∧
    (UserProfilePage raw none s env).2 =
      [DBOp.selectProfileExact (cleanUsername raw),
       DBOp.selectProfileIlike (cleanUsername raw)] := by
  unfold UserProfilePage
  rw [handlerWith_notFound raw _ h₁ h₂]
  exact ⟨rfl, rfl⟩

/-- C3 witness: an unknown username against the empty store renders the
not-found view after exactly the two profile lookups. -/
theorem not_found_no_related_queries_witness :
    (UserProfilePage "ghost" none emptyStore noErrors).1 = Output.notFound ∧
    (UserProfilePage "ghost" none emptyStore noErrors).2 =
      [DBOp.selectProfileExact (cleanUsername "ghost"),
       DBOp.selectProfileIlike (cleanUsername "ghost")] :=
  not_found_no_related_queries "ghost" emptyStore noErrors (by decide) (by decide)

/-- C4 counterexample: the claim fails at `u = "@bob"`: normalizing
`"@" + "@bob"` gives `"@bob"` (only the single leading `@` is stripped),
while normalizing the trimmed `"@bob"` gives `"bob"`. -/
theorem normalize_at_counterexample :
    cleanUsername ("@" ++ "@bob") ≠ cleanUsername (jsTrim "@bob") := by decide

/-- C4 (amended): for every username `u` whose trimmed form does not itself
begin with `@`, normalizing `"@" + u` yields the same lookup key as
normalizing the trimmed `u`; and normalization strips a single leading `@`
if present and then trims whitespace. -/
theorem normalize_at_amended (u : String)
    (h : jsStartsWithAtSign (jsTrim u) = false) :
    cleanUsername ("@" ++ u) = cleanUsername (jsTrim u) ∧
    (∀ v : String, cleanUsername v = stripAtThenTrim v) := by
  constructor
  · have hdata : ("@" ++ u).data = '@' :: u.data := by
      rw [String.data_append]
      rfl
    have hstart : jsStartsWithAtSign ("@" ++ u) = true := by
      unfold jsStartsWithAtSign
      rw [hdata]
      rfl
    have hsub : jsSubstringFromOne ("@" ++ u) = u := by
      unfold jsSubstringFromOne
      rw [hdata]
      rfl
    have hL : cleanUsername ("@" ++ u) = jsTrim u := by
      unfold cleanUsername
      rw [hsub] at *
      simp [hstart, hsub]
    have hR : cleanUsername (jsTrim u) = jsTrim (jsTrim u) := by
      unfold cleanUsername
      simp [h]
    rw [hL, hR, jsTrim_idem]
  · intro v
    cases hb : jsStartsWithAtSign v <;> simp [cleanUsername, stripAtThenTrim, hb]

/-- C4 witness: at `u = "bob"` the amended statement applies and both
normalizations give "bob". -/
theorem normalize_at_amended_witness :
    jsStartsWithAtSign (jsTrim "bob") = false ∧
    cleanUsername ("@" ++ "bob") = cleanUsername (jsTrim "bob") :=
  ⟨by decide, (normalize_at_amended "bob" (by decide)).1⟩

/-- C5: for every resolved profile, the rendered resource list has at most 3
entries, contains only rows authored by the profile and approved, and is
ordered by `created_at` descending. -/
theorem rendered_resources_bounded_filtered_sorted (raw : String) (s : Store)
    (p : Profile) (v : RenderedView)
    (h₁ : resolvedProfile s (cleanUsername raw) = some p)
    (h₂ : (UserProfilePage raw none s noErrors).1 = Output.render v) :
    v.resourceCards.length ≤ 3 ∧
    (∀ r ∈ v.resourceCards, r.author_id = p.id ∧ r.is_approved = true) ∧
    List.Sorted resourceNewestFirst v.resourceCards := by
  have hv := h₂.symm.trans (UserProfilePage_render_of_resolved raw s p h₁)
  injection hv with hveq
  subst hveq
  exact ⟨resourcesQuery_length s p.id,
    fun r hr => resourcesQuery_mem s p.id r hr,
    resourcesQuery_sorted s p.id⟩

/-- C5 witness: Alice's store holds four resource rows (one unapproved, one
by another author); the rendered list satisfies the bound, the filters and
the ordering. -/
theorem rendered_resources_bounded_filtered_sorted_witness :
    (renderView aliceProfile (resourcesQuery aliceStore aliceProfile.id)
        (studyGroupsQuery aliceStore aliceProfile.id)).resourceCards.length ≤ 3 ∧
    (∀ r ∈ (renderView aliceProfile (resourcesQuery aliceStore aliceProfile.id)
        (studyGroupsQuery aliceStore aliceProfile.id)).resourceCards,
      r.author_id = aliceProfile.id ∧ r.is_approved = true) ∧
    List.Sorted resourceNewestFirst
      (renderView aliceProfile (resourcesQuery aliceStore aliceProfile.id)
        (studyGroupsQuery aliceStore aliceProfile.id)).resourceCards :=
  rendered_resources_bounded_filtered_sorted "alice" aliceStore aliceProfile _
    (by decide) (by decide)

/-- C6: for every resolved profile, the rendered study-group list has at most
3 entries, contains only rows created by the profile that are not private,
and is ordered by `created_at` descending. -/
theorem rendered_groups_bounded_filtered_sorted (raw : String) (s : Store)
    (p : Profile) (v : RenderedView)
    (h₁ : resolvedProfile s (cleanUsername raw) = some p)
    (h₂ : (UserProfilePage raw none s noErrors).1 = Output.render v) :
    v.studyGroupCards.length ≤ 3 ∧
    (∀ g ∈ v.studyGroupCards, g.created_by = p.id ∧ g.is_private = false) ∧
    List.Sorted groupNewestFirst v.studyGroupCards := by
  have hv := h₂.symm.trans (UserProfilePage_render_of_resolved raw s p h₁)
  injection hv with hveq
  subst hveq
  exact ⟨studyGroupsQuery_length s p.id,
    fun g hg => studyGroupsQuery_mem s p.id g hg,
    studyGroupsQuery_sorted s p.id⟩

/-- C6 witness: Alice's store holds four study-group rows (one private, one
by another creator); the rendered list satisfies the bound, the filters and
the ordering. -/
theorem rendered_groups_bounded_filtered_sorted_witness :
    (renderView aliceProfile (resourcesQuery aliceStore aliceProfile.id)
        (studyGroupsQuery aliceStore aliceProfile.id)).studyGroupCards.length ≤ 3 ∧
    (∀ g ∈ (renderView aliceProfile (resourcesQuery aliceStore aliceProfile.id)
        (studyGroupsQuery aliceStore aliceProfile.id)).studyGroupCards,
      g.created_by = aliceProfile.id ∧ g.is_private = false) ∧
    List.Sorted groupNewestFirst
      (renderView aliceProfile (resourcesQuery aliceStore aliceProfile.id)
        (studyGroupsQuery aliceStore aliceProfile.id)).studyGroupCards :=
  rendered_groups_bounded_filtered_sorted "alice" aliceStore aliceProfile _
    (by decide) (by decide)

/-- C7: query-level errors are captured but never inspected: the handler's
output and operation log over any responses are identical to those over the
same responses with every error erased and failed data read as absent, so a
query failure is indistinguishable from an empty result in the rendered
view. -/
theorem query_failures_indistinguishable (raw : String) (sess : Option Session)
    (r : QueryResponses) :
    handlerWith raw sess r = handlerWith raw sess r.asEmpty := by
  cases sess with
  | some sess => rfl
  | none =>
    rcases he : r.exactResp.1 with _ | p
    · rcases hi : r.ilikeResp.1 with _ | q
      · rw [handlerWith_notFound raw r he hi,
          handlerWith_notFound raw r.asEmpty (by simp [QueryResponses.asEmpty, he])
            (by simp [QueryResponses.asEmpty, hi])]
      · rw [handlerWith_fallback raw r q he hi,
          handlerWith_fallback raw r.asEmpty q (by simp [QueryResponses.asEmpty, he])
            (by simp [QueryResponses.asEmpty, hi])]
        simp [QueryResponses.asEmpty]
    · rw [handlerWith_exact raw r p he,
        handlerWith_exact raw r.asEmpty p (by simp [QueryResponses.asEmpty, he])]
      simp [QueryResponses.asEmpty]

/-- C8: for every resolved profile row, the display name falls back from
`full_name` to `username`, the avatar fallback is the first two characters of
`full_name` (or of `username` when `full_name` is empty) upper-cased, and
each of the university, major and bio lines is omitted exactly when its field
is empty. -/
theorem header_fallbacks_and_conditional_lines (raw : String) (s : Store)
    (p : Profile) (v : RenderedView)
    (h₁ : resolvedProfile s (cleanUsername raw) = some p)
    (h₂ : (UserProfilePage raw none s noErrors).1 = Output.render v) :
    v.displayName = (if p.full_name == "" then p.username else p.full_name) ∧
    v.avatarFallback =
      jsToUpper (jsTakeTwo (if p.full_name == "" then p.username else p.full_name)) ∧
    v.universityLine = (if p.university == "" then none else some p.university) ∧
    v.majorLine = (if p.major == "" then none else some p.major) ∧
    v.bioLine = (if p.bio == "" then none else some p.bio) := by
  have hv := h₂.symm.trans (UserProfilePage_render_of_resolved raw s p h₁)
  injection hv with hveq
  subst hveq
  refine ⟨rfl, ?_, rfl, rfl, rfl⟩
  show jsToUpper (jsTakeTwo (jsOr p.full_name (jsOr p.username ""))) = _
  by_cases hf : p.full_name == ""
  · by_cases hu : p.username == ""
    · have hu' : p.username = "" := eq_of_beq hu
      simp [jsOr, hf, hu, hu']
    · simp [jsOr, hf, hu]
  · simp [jsOr, hf]

/-- C8 witness: Alice's row has a full name, an empty major and a non-empty
university and bio; the rendered header shows exactly the claimed fields. -/
theorem header_fallbacks_and_conditional_lines_witness :
    (renderView aliceProfile (resourcesQuery aliceStore aliceProfile.id)
        (studyGroupsQuery aliceStore aliceProfile.id)).displayName =
      (if aliceProfile.full_name == "" then aliceProfile.username
        else aliceProfile.full_name) ∧
    (renderView aliceProfile (resourcesQuery aliceStore aliceProfile.id)
        (studyGroupsQuery aliceStore aliceProfile.id)).avatarFallback =
      jsToUpper (jsTakeTwo (if aliceProfile.full_name == "" then aliceProfile.username
        else aliceProfile.full_name)) ∧
    (renderView aliceProfile (resourcesQuery aliceStore aliceProfile.id)
        (studyGroupsQuery aliceStore aliceProfile.id)).universityLine =
      (if aliceProfile.university == "" then none else some aliceProfile.university) ∧
    (renderView aliceProfile (resourcesQuery aliceStore aliceProfile.id)
        (studyGroupsQuery aliceStore aliceProfile.id)).majorLine =
      (if aliceProfile.major == "" then none else some aliceProfile.major) ∧
    (renderView aliceProfile (resourcesQuery aliceStore aliceProfile.id)
        (studyGroupsQuery aliceStore aliceProfile.id)).bioLine =
      (if aliceProfile.bio == "" then none else some aliceProfile.bio) :=
  header_fallbacks_and_conditional_lines "alice" aliceStore aliceProfile _
    (by decide) (by decide)

/-- C9: on every input and every execution path the handler issues only read
operations and never mutates the store: running its operation log against the
store is the identity. -/
theorem handler_only_reads (raw : String) (sess : Option Session) (s : Store)
    (env : ErrorEnv) :
    (UserProfilePage raw sess s env).2.all DBOp.isRead = true ∧
    execLog s (UserProfilePage raw sess s env).2 = s := by
  unfold UserProfilePage
  cases sess with
  | some sess => exact ⟨rfl, rfl⟩
  | none =>
    rcases he : (mkResponses s (cleanUsername raw) env).exactResp.1 with _ | p
    · rcases hi : (mkResponses s (cleanUsername raw) env).ilikeResp.1 with _ | q
      · rw [handlerWith_notFound raw _ he hi]
        exact ⟨rfl, rfl⟩
      · rw [handlerWith_fallback raw _ q he hi]
        exact ⟨rfl, rfl⟩
    · rw [handlerWith_exact raw _ p he]
      exact ⟨rfl, rfl⟩

/-- C10: the rendered handle line is `@` followed by the stored profile row's
username, not the requested lookup key. -/
theorem handle_shows_stored_username (raw : String) (s : Store) (p : Profile)
    (v : RenderedView)
    (h₁ : resolvedProfile s (cleanUsername raw) = some p)
    (h₂ : (UserProfilePage raw none s noErrors).1 = Output.render v) :
    v.handle = "@" ++ p.username := by
  have hv := h₂.symm.trans (UserProfilePage_render_of_resolved raw s p h₁)
  injection hv with hveq
  subst hveq
  rfl

/-- C10 witness: requesting "janedoe" resolves the stored row "JaneDoe" via
the fallback, and the handle shows the stored casing, which differs from the
requested key. -/
theorem handle_shows_stored_username_witness :
    (renderView janeProfile (resourcesQuery janeStore janeProfile.id)
        (studyGroupsQuery janeStore janeProfile.id)).handle =
      "@" ++ janeProfile.username ∧
    "@" ++ janeProfile.username ≠ "@" ++ cleanUsername "janedoe" :=
  ⟨handle_shows_stored_username "janedoe" janeStore janeProfile _
    (by decide) (by decide), by decide⟩

end UniShare
